import Mathlib

/-!
Shallow embedding of the Montelukast risk assessment engine (src/script.js).

The repository ships two variants of the same `RiskEngine` object in one file:

* an extended variant (`RiskEngine`, first half of script.js) whose
  `getDurationKey` interprets the duration as *weeks* (short < 4,
  medium ≤ 24, long > 24) and whose `calculate` takes two extra arguments
  `brand` and `comboDrugs` implementing a hard critical-combination
  override (brand "Almont" together with combo drug "Levocetirizine"
  forces risk 0.96);

* a plain variant (`RiskEngineM`, second half of script.js) whose
  `getDurationKey` interprets the duration as *months* (short < 1,
  medium ≤ 6, long > 6) and whose `calculate` has no brand/combo
  arguments and no critical-combination rule.

All JavaScript numbers are modelled as rationals (ℚ); `Math.round` is
modelled by Mathlib's `round : ℚ → ℤ`, which also rounds half away from
zero upward, matching `Math.round` on the values that occur here.
An `age` or `duration` argument that may be absent (`undefined`/`null`,
or the empty string for the duration) is modelled as `Option ℚ`, with
`none` standing for the absent/empty value; a present `0` is kept as
`some 0` because JavaScript distinguishes it only through falsiness,
which the embedding checks explicitly where the source does (`!age`).

The dictionary lookups `TABLE[key] || default` are modelled as
`(table.lookup key).getD default`; no table value here is falsy, so the
`||`-default coincides with the miss-default.
-/

namespace RiskEngine

/-- Age-based baseline risk table (src/script.js lines 8-15). -/
def AGE_BASELINES : List (String × ℚ) :=
  [("16-18", 0.14),
   ("13-15", 0.325),
   ("10-12", 0.535),
   ("7-9", 0.69),
   ("4-6", 0.85),
   ("1-3", 0.94)]

/-- Dose scaling table (src/script.js lines 18-22). -/
def DOSE_MULTIPLIERS : List (String × ℚ) :=
  [("4mg", 1.0),
   ("5mg", 1.1),
   ("10mg", 1.25)]

/-- Duration scaling table, weeks based (src/script.js lines 28-32). -/
def DURATION_MULTIPLIERS : List (String × ℚ) :=
  [("short", 1.0),
   ("medium", 1.1),
   ("long", 1.2)]

/-- High-risk symptom catalog (src/script.js lines 36-48). -/
def HIGH_RISK : List String :=
  ["Suicidal ideation / self-harm thoughts",
   "Suicide attempt",
   "Severe depression",
   "Psychosis / hallucinations",
   "Severe aggression or violent behavior",
   "Extreme mood swings",
   "Severe anxiety with panic attacks",
   "Personality changes (sudden, marked)",
   "Disorientation / confusion",
   "Loss of reality contact",
   "Behavioral regression (in children)"]

/-- Moderate/low-risk symptom catalog (src/script.js lines 49-67). -/
def MODERATE_LOW_RISK : List String :=
  ["Anxiety",
   "Depression (mild-moderate)",
   "Irritability",
   "Aggressive behavior",
   "Emotional lability",
   "Night terrors",
   "Severe insomnia",
   "Social withdrawal",
   "Poor concentration / attention issues",
   "Sleep disturbance",
   "Restlessness",
   "Nightmares",
   "Crying spells",
   "Fatigue",
   "Headache with mood change",
   "Appetite changes",
   "Mild mood changes"]

/-- Helper `getAgeGroupKey` (src/script.js lines 71-79).  `!age` is true in
JavaScript exactly for an absent age (`none`) or a present `0`. -/
def getAgeGroupKey (age : Option ℚ) : String :=
  match age with
  | none => "7-9"
  | some a =>
    if a = 0 then "7-9"
    else if a ≥ 16 then "16-18"
    else if a ≥ 13 then "13-15"
    else if a ≥ 10 then "10-12"
    else if a ≥ 7 then "7-9"
    else if a ≥ 4 then "4-6"
    else "1-3"

/-- Helper `getDurationKey` (src/script.js lines 82-87), weeks variant.
Here `none` stands for the empty string or `null`. -/
def getDurationKey (weeks : Option ℚ) : String :=
  match weeks with
  | none => "medium"
  | some w =>
    if w < 4 then "short"
    else if w ≤ 24 then "medium"
    else "long"

/-- Baseline lookup with default, `AGE_BASELINES[ageGroup] || 0.14`
(src/script.js line 97). -/
def baseRiskOf (age : Option ℚ) : ℚ :=
  (AGE_BASELINES.lookup (getAgeGroupKey age)).getD 0.14

/-- Dose multiplier lookup, `DOSE_MULTIPLIERS[dose] || 1.0`
(src/script.js line 100). -/
def doseMultOf (dose : String) : ℚ :=
  (DOSE_MULTIPLIERS.lookup dose).getD 1.0

/-- Duration multiplier lookup, `DURATION_MULTIPLIERS[duration] || 1.0`
(src/script.js line 101). -/
def durMultOf (durationWeeks : Option ℚ) : ℚ :=
  (DURATION_MULTIPLIERS.lookup (getDurationKey durationWeeks)).getD 1.0

/-- Count-based symptom adder (src/script.js lines 107-121). -/
def symptomAdder (n : ℕ) : ℚ :=
  if n ≥ 4 then 0.25
  else if n ≥ 2 then 0.10
  else if n = 1 then 0.05
  else 0

/-- Count-based symptom category (src/script.js lines 107-121). -/
def symptomCountCategory (n : ℕ) : String :=
  if n ≥ 4 then "High"
  else if n ≥ 2 then "Moderate"
  else "Low"

/-- Predicate `selectedSymptoms.some(s => SYMPTOMS.HIGH_RISK.includes(s))`
(src/script.js line 126). -/
def hasHighSeverity (selectedSymptoms : List String) : Bool :=
  selectedSymptoms.any (fun s => HIGH_RISK.contains s)

/-- Symptom category after the severity override (src/script.js
lines 108-131): the count category, overridden to "High (Severity)"
when a catalog high-risk symptom is present. -/
def symptomCatOf (selectedSymptoms : List String) : String :=
  if hasHighSeverity selectedSymptoms then "High (Severity)"
  else symptomCountCategory selectedSymptoms.length

/-- Condition `brand === Almont && comboDrugs.includes(Levocetirizine)`
(src/script.js line 141), with `comboDrugs` an actual list. -/
def isCriticalCombo (brand : String) (comboDrugs : List String) : Bool :=
  brand == "Almont" && comboDrugs.contains "Levocetirizine"

/-- The risk fraction after steps 1-6 of `calculate` (src/script.js
lines 96-144): baseline times dose and duration multipliers, plus the
count adder, severity floor at 0.75, temporal ×1.15 boost, and the
critical-combination override to 0.96 — but before clamping. -/
def preClampRisk (ageInput : Option ℚ) (dose : String) (durationWeeks : Option ℚ)
    (selectedSymptoms : List String) (temporalAssociation : Bool)
    (brand : String) (comboDrugs : List String) : ℚ :=
  let risk1 := baseRiskOf ageInput * doseMultOf dose * durMultOf durationWeeks
      + symptomAdder selectedSymptoms.length
  let risk2 := if hasHighSeverity selectedSymptoms then max risk1 0.75 else risk1
  let risk3 := if temporalAssociation then risk2 * 1.15 else risk2
  if isCriticalCombo brand comboDrugs then 0.96 else risk3

/-- Clamping step 7 (src/script.js lines 147-148): cap above at 0.99,
then below at 0.05. -/
def clampRisk (r : ℚ) : ℚ :=
  let r1 := if r > 0.99 then 0.99 else r
  if r1 < 0.05 then 0.05 else r1

/-- The final clamped risk fraction of `calculate`. -/
def riskFraction (ageInput : Option ℚ) (dose : String) (durationWeeks : Option ℚ)
    (selectedSymptoms : List String) (temporalAssociation : Bool)
    (brand : String) (comboDrugs : List String) : ℚ :=
  clampRisk (preClampRisk ageInput dose durationWeeks selectedSymptoms
    temporalAssociation brand comboDrugs)

/-- Label step 8 (src/script.js lines 151-153), applied to the clamped
fraction. -/
def labelFor (r : ℚ) : String :=
  if r ≥ 0.70 then "High Risk"
  else if r ≥ 0.30 then "Moderate Risk"
  else "Low Risk"

/-- The details sub-record of the result (src/script.js lines 158-163). -/
structure RiskDetails where
  base : ℚ
  symptomCat : String
  hasHighSeverity : Bool
  isCriticalCombo : Bool
deriving Repr, DecidableEq

/-- The result record of `calculate` (src/script.js lines 155-164). -/
structure RiskResult where
  percentage : ℤ
  label : String
  details : RiskDetails
deriving Repr, DecidableEq

/-- Function `RiskEngine.calculate` (src/script.js lines 92-165), extended
weeks variant, on the documented input domain (`comboDrugs` an actual list). -/
def calculate (ageInput : Option ℚ) (dose : String) (durationWeeks : Option ℚ)
    (selectedSymptoms : List String) (temporalAssociation : Bool)
    (brand : String) (comboDrugs : List String) : RiskResult :=
  let r := riskFraction ageInput dose durationWeeks selectedSymptoms
    temporalAssociation brand comboDrugs
  { percentage := round (r * 100),
    label := labelFor r,
    details :=
      { base := baseRiskOf ageInput,
        symptomCat := symptomCatOf selectedSymptoms,
        hasHighSeverity := hasHighSeverity selectedSymptoms,
        isCriticalCombo := isCriticalCombo brand comboDrugs } }

/-- Function `RiskEngine.calculate` as actually invocable from JavaScript,
where `comboDrugs` may also be absent (`undefined`), e.g. when the last
argument is omitted at a call site.  Evaluation of the condition
`brand === Almont && comboDrugs.includes(Levocetirizine)`
(src/script.js line 141) short-circuits: `comboDrugs` is only
dereferenced when the brand comparison succeeds, and dereferencing an
absent `comboDrugs` raises a `TypeError`, modelled as `Except.error`. -/
def calculateJS (ageInput : Option ℚ) (dose : String) (durationWeeks : Option ℚ)
    (selectedSymptoms : List String) (temporalAssociation : Bool)
    (brand : String) (comboDrugs : Option (List String)) :
    Except String RiskResult :=
  if brand == "Almont" then
    match comboDrugs with
    | none =>
        Except.error "TypeError: Cannot read properties of undefined (reading includes)"
    | some l =>
        Except.ok (calculate ageInput dose durationWeeks selectedSymptoms
          temporalAssociation brand l)
  else
    Except.ok (calculate ageInput dose durationWeeks selectedSymptoms
      temporalAssociation brand (comboDrugs.getD []))

end RiskEngine

namespace RiskEngineM

/-- Helper `getDurationKey` of the plain variant (src/script.js lines 433-438),
which interprets the duration as months: short < 1, medium ≤ 6,
long > 6.  `none` stands for the empty string or `null`. -/
def getDurationKey (months : Option ℚ) : String :=
  match months with
  | none => "medium"
  | some m =>
    if m < 1 then "short"
    else if m ≤ 6 then "medium"
    else "long"

/-- Duration multiplier lookup of the plain variant (src/script.js
lines 379-383 and 452); the table values coincide with the weeks
variant's `DURATION_MULTIPLIERS`. -/
def durMultOf (durationMonths : Option ℚ) : ℚ :=
  (RiskEngine.DURATION_MULTIPLIERS.lookup (getDurationKey durationMonths)).getD 1.0

/-- The details sub-record of the plain variant's result (src/script.js
lines 501-505): no critical-combination flag. -/
structure RiskDetailsM where
  base : ℚ
  symptomCat : String
  hasHighSeverity : Bool
deriving Repr, DecidableEq

/-- The result record of the plain variant's `calculate` (src/script.js
lines 498-507). -/
structure RiskResultM where
  percentage : ℤ
  label : String
  details : RiskDetailsM
deriving Repr, DecidableEq

/-- The plain variant's risk fraction after steps 1-5 (src/script.js
lines 444-487), before clamping.  The age baselines, dose multipliers
and symptom catalogs are repeated verbatim in the source (lines
362-418), so the weeks variant's tables and helpers are reused. -/
def preClampRisk (ageInput : Option ℚ) (dose : String) (durationMonths : Option ℚ)
    (selectedSymptoms : List String) (temporalAssociation : Bool) : ℚ :=
  let risk1 := RiskEngine.baseRiskOf ageInput * RiskEngine.doseMultOf dose
      * durMultOf durationMonths + RiskEngine.symptomAdder selectedSymptoms.length
  let risk2 := if RiskEngine.hasHighSeverity selectedSymptoms then max risk1 0.75 else risk1
  if temporalAssociation then risk2 * 1.15 else risk2

/-- The plain variant's final clamped risk fraction (src/script.js
lines 490-491). -/
def riskFraction (ageInput : Option ℚ) (dose : String) (durationMonths : Option ℚ)
    (selectedSymptoms : List String) (temporalAssociation : Bool) : ℚ :=
  RiskEngine.clampRisk (preClampRisk ageInput dose durationMonths selectedSymptoms
    temporalAssociation)

/-- The plain variant's `RiskEngine.calculate` (src/script.js
lines 443-507), months based, without the critical-combination rule. -/
def calculate (ageInput : Option ℚ) (dose : String) (durationMonths : Option ℚ)
    (selectedSymptoms : List String) (temporalAssociation : Bool) : RiskResultM :=
  let r := riskFraction ageInput dose durationMonths selectedSymptoms
    temporalAssociation
  { percentage := round (r * 100),
    label := RiskEngine.labelFor r,
    details :=
      { base := RiskEngine.baseRiskOf ageInput,
        symptomCat := RiskEngine.symptomCatOf selectedSymptoms,
        hasHighSeverity := RiskEngine.hasHighSeverity selectedSymptoms } }

end RiskEngineM

/-! ## Helper lemmas -/

namespace RiskEngine

/-- Evaluation of the default (absent-age) baseline. -/
theorem baseRiskOf_none_eval : baseRiskOf none = 0.69 := by
  simp [baseRiskOf, getAgeGroupKey, AGE_BASELINES, List.lookup]

/-- Evaluation of the baseline for a present age, as a plain conditional
on the rational age. -/
theorem baseRiskOf_some_eval (a : ℚ) : baseRiskOf (some a) =
    if a = 0 then 0.69
    else if 16 ≤ a then 0.14
    else if 13 ≤ a then 0.325
    else if 10 ≤ a then 0.535
    else if 7 ≤ a then 0.69
    else if 4 ≤ a then 0.85
    else 0.94 := by
  by_cases h0 : a = 0
  · simp [baseRiskOf, getAgeGroupKey, AGE_BASELINES, List.lookup, h0]
  by_cases h1 : 16 ≤ a
  · simp [baseRiskOf, getAgeGroupKey, AGE_BASELINES, List.lookup, h0, h1]
  by_cases h2 : 13 ≤ a
  · simp [baseRiskOf, getAgeGroupKey, AGE_BASELINES, List.lookup, h0, h1, h2]
  by_cases h3 : 10 ≤ a
  · simp [baseRiskOf, getAgeGroupKey, AGE_BASELINES, List.lookup, h0, h1, h2, h3]
  by_cases h4 : 7 ≤ a
  · simp [baseRiskOf, getAgeGroupKey, AGE_BASELINES, List.lookup, h0, h1, h2, h3, h4]
  by_cases h5 : 4 ≤ a
  · simp [baseRiskOf, getAgeGroupKey, AGE_BASELINES, List.lookup, h0, h1, h2, h3, h4, h5]
  · simp [baseRiskOf, getAgeGroupKey, AGE_BASELINES, List.lookup, h0, h1, h2, h3, h4, h5]

/-- Evaluation of the duration multiplier for an absent duration. -/
theorem durMultOf_none_eval : durMultOf none = 1.1 := by
  simp [durMultOf, getDurationKey, DURATION_MULTIPLIERS, List.lookup]

/-- Evaluation of the duration multiplier for a present duration, as a
plain conditional on the rational number of weeks. -/
theorem durMultOf_some_eval (w : ℚ) : durMultOf (some w) =
    if w < 4 then 1.0
    else if w ≤ 24 then 1.1
    else 1.2 := by
  by_cases h1 : w < 4
  · simp [durMultOf, getDurationKey, DURATION_MULTIPLIERS, List.lookup, h1]
  by_cases h2 : w ≤ 24
  · simp [durMultOf, getDurationKey, DURATION_MULTIPLIERS, List.lookup, h1, h2]
  · simp [durMultOf, getDurationKey, DURATION_MULTIPLIERS, List.lookup, h1, h2]

/-- The two sequential clamps land in the interval `[0.05, 0.99]`. -/
theorem clampRisk_mem (r : ℚ) : 0.05 ≤ clampRisk r ∧ clampRisk r ≤ 0.99 := by
  simp only [clampRisk]
  split_ifs <;> constructor <;> linarith

/-- Clamping is the identity on values already inside the interval. -/
theorem clampRisk_id {r : ℚ} (h1 : 0.05 ≤ r) (h2 : r ≤ 0.99) : clampRisk r = r := by
  simp only [clampRisk]
  split_ifs <;> first | rfl | linarith

/-- Clamping preserves a lower bound that is itself at most 0.99. -/
theorem clampRisk_le {c r : ℚ} (hc : c ≤ 0.99) (h : c ≤ r) : c ≤ clampRisk r := by
  simp only [clampRisk]
  split_ifs <;> linarith

/-- Rounding stays between integer bounds that bracket the value. -/
theorem round_mem {lo hi : ℤ} {q : ℚ} (h1 : (lo : ℚ) ≤ q) (h2 : q ≤ (hi : ℚ)) :
    lo ≤ round q ∧ round q ≤ hi := by
  rw [round_eq]
  constructor
  · apply Int.le_floor.mpr
    linarith
  · have h3 : ⌊q + 1 / 2⌋ < hi + 1 := by
      apply Int.floor_lt.mpr
      push_cast
      linarith
    omega

end RiskEngine

/-- Scaling a months value by 4 crosses the weeks-variant thresholds
exactly where the months-variant thresholds lie. -/
theorem getDurationKey_four_mul (m : ℚ) :
    RiskEngine.getDurationKey (some (4 * m)) = RiskEngineM.getDurationKey (some m) := by
  simp only [RiskEngine.getDurationKey, RiskEngineM.getDurationKey]
  split_ifs <;> first | rfl | (exfalso ; linarith)

/-! ## Claims -/

/-- C1: for every input to `calculate`, the clamped risk fraction lies in
`[0.05, 0.99]`, the returned percentage is the rounding of the fraction
times 100, and the percentage lies in `[5, 99]`. -/
theorem riskFraction_percentage_bounds (age : Option ℚ) (dose : String)
    (dur : Option ℚ) (syms : List String) (t : Bool) (brand : String)
    (combo : List String) :
    0.05 ≤ RiskEngine.riskFraction age dose dur syms t brand combo ∧
    RiskEngine.riskFraction age dose dur syms t brand combo ≤ 0.99 ∧
    (RiskEngine.calculate age dose dur syms t brand combo).percentage
      = round (RiskEngine.riskFraction age dose dur syms t brand combo * 100) ∧
    5 ≤ (RiskEngine.calculate age dose dur syms t brand combo).percentage ∧
    (RiskEngine.calculate age dose dur syms t brand combo).percentage ≤ 99 := by
  obtain ⟨h1, h2⟩ := RiskEngine.clampRisk_mem
    (RiskEngine.preClampRisk age dose dur syms t brand combo)
  have hf1 : 0.05 ≤ RiskEngine.riskFraction age dose dur syms t brand combo := h1
  have hf2 : RiskEngine.riskFraction age dose dur syms t brand combo ≤ 0.99 := h2
  have hp : (RiskEngine.calculate age dose dur syms t brand combo).percentage
      = round (RiskEngine.riskFraction age dose dur syms t brand combo * 100) := rfl
  obtain ⟨h5, h6⟩ := @RiskEngine.round_mem 5 99
    (RiskEngine.riskFraction age dose dur syms t brand combo * 100)
    (by push_cast; linarith) (by push_cast; linarith)
  exact ⟨hf1, hf2, hp, hp ▸ h5, hp ▸ h6⟩

/-- C2: any catalog high-risk symptom forces the clamped fraction to at
least 0.75 and the reported symptom category to "High (Severity)". -/
theorem highSeverity_floor (age : Option ℚ) (dose : String) (dur : Option ℚ)
    (syms : List String) (t : Bool) (brand : String) (combo : List String)
    (h : RiskEngine.hasHighSeverity syms = true) :
    0.75 ≤ RiskEngine.riskFraction age dose dur syms t brand combo ∧
    (RiskEngine.calculate age dose dur syms t brand combo).details.symptomCat
      = "High (Severity)" := by
  constructor
  · have hpre : (0.75 : ℚ) ≤ RiskEngine.preClampRisk age dose dur syms t brand combo := by
      simp only [RiskEngine.preClampRisk, h, if_true]
      split_ifs
      · norm_num
      · linarith [le_max_right (RiskEngine.baseRiskOf age * RiskEngine.doseMultOf dose *
          RiskEngine.durMultOf dur + RiskEngine.symptomAdder syms.length) (0.75 : ℚ)]
      · linarith [le_max_right (RiskEngine.baseRiskOf age * RiskEngine.doseMultOf dose *
          RiskEngine.durMultOf dur + RiskEngine.symptomAdder syms.length) (0.75 : ℚ)]
    exact RiskEngine.clampRisk_le (by norm_num) hpre
  · show RiskEngine.symptomCatOf syms = "High (Severity)"
    simp [RiskEngine.symptomCatOf, h]

/-- C2 witness: a concrete input carrying the catalog symptom
"Suicide attempt". -/
theorem highSeverity_floor_witness :
    0.75 ≤ RiskEngine.riskFraction (some 8) "5mg" (some 12) ["Suicide attempt"]
      false "Singulair" [] ∧
    (RiskEngine.calculate (some 8) "5mg" (some 12) ["Suicide attempt"]
      false "Singulair" []).details.symptomCat = "High (Severity)" :=
  highSeverity_floor (some 8) "5mg" (some 12) ["Suicide attempt"] false "Singulair" []
    (by simp [RiskEngine.hasHighSeverity, RiskEngine.HIGH_RISK])

/-- C5: the label is derived from the clamped fraction by the fixed cut
points 0.70 and 0.30. -/
theorem label_cut_points (age : Option ℚ) (dose : String) (dur : Option ℚ)
    (syms : List String) (t : Bool) (brand : String) (combo : List String) :
    (0.70 ≤ RiskEngine.riskFraction age dose dur syms t brand combo →
      (RiskEngine.calculate age dose dur syms t brand combo).label = "High Risk") ∧
    (0.30 ≤ RiskEngine.riskFraction age dose dur syms t brand combo ∧
        RiskEngine.riskFraction age dose dur syms t brand combo < 0.70 →
      (RiskEngine.calculate age dose dur syms t brand combo).label = "Moderate Risk") ∧
    (RiskEngine.riskFraction age dose dur syms t brand combo < 0.30 →
      (RiskEngine.calculate age dose dur syms t brand combo).label = "Low Risk") := by
  have hl : (RiskEngine.calculate age dose dur syms t brand combo).label
      = RiskEngine.labelFor (RiskEngine.riskFraction age dose dur syms t brand combo) := rfl
  refine ⟨fun h => ?_, fun h => ?_, fun h => ?_⟩ <;> rw [hl] <;>
    simp only [RiskEngine.labelFor]
  · rw [if_pos h]
  · rw [if_neg (not_le.mpr h.2), if_pos h.1]
  · rw [if_neg (not_le.mpr (lt_of_lt_of_le h (by norm_num))), if_neg (not_le.mpr h)]

/-- C5 witness: a concrete low-risk input whose clamped fraction 0.14 is
below the 0.30 cut point. -/
theorem label_cut_points_witness :
    (RiskEngine.calculate (some 17) "4mg" (some 2) [] false "" []).label = "Low Risk" :=
  (label_cut_points (some 17) "4mg" (some 2) [] false "" []).2.2 (by
    have hb : RiskEngine.baseRiskOf (some 17) = 0.14 := by
      rw [RiskEngine.baseRiskOf_some_eval]; norm_num
    have hdo : RiskEngine.doseMultOf "4mg" = 1.0 := by
      simp [RiskEngine.doseMultOf, RiskEngine.DOSE_MULTIPLIERS, List.lookup]
    have hdu : RiskEngine.durMultOf (some 2) = 1.0 := by
      rw [RiskEngine.durMultOf_some_eval]; norm_num
    simp only [RiskEngine.riskFraction, RiskEngine.preClampRisk, RiskEngine.clampRisk,
      hb, hdo, hdu, RiskEngine.symptomAdder, RiskEngine.hasHighSeverity,
      RiskEngine.isCriticalCombo, List.any_nil, List.length_nil]
    norm_num)

/-- C6: the age-bracket baselines: 0.14 for ages at least 16, 0.325 on
[13,16), 0.535 on [10,13), 0.69 on [7,10), 0.85 on [4,7), 0.94 on [1,4),
and 0.69 for an absent or zero age; the baseline reported by `calculate`
is exactly `baseRiskOf`. -/
theorem age_bracket_baselines :
    RiskEngine.baseRiskOf none = 0.69 ∧
    RiskEngine.baseRiskOf (some 0) = 0.69 ∧
    (∀ a : ℚ,
      (16 ≤ a → RiskEngine.baseRiskOf (some a) = 0.14) ∧
      (13 ≤ a ∧ a < 16 → RiskEngine.baseRiskOf (some a) = 0.325) ∧
      (10 ≤ a ∧ a < 13 → RiskEngine.baseRiskOf (some a) = 0.535) ∧
      (7 ≤ a ∧ a < 10 → RiskEngine.baseRiskOf (some a) = 0.69) ∧
      (4 ≤ a ∧ a < 7 → RiskEngine.baseRiskOf (some a) = 0.85) ∧
      (1 ≤ a ∧ a < 4 → RiskEngine.baseRiskOf (some a) = 0.94)) ∧
    (∀ (age : Option ℚ) (dose : String) (dur : Option ℚ) (syms : List String)
      (t : Bool) (brand : String) (combo : List String),
      (RiskEngine.calculate age dose dur syms t brand combo).details.base
        = RiskEngine.baseRiskOf age) := by
  refine ⟨RiskEngine.baseRiskOf_none_eval, ?_, ?_,
    fun age dose dur syms t brand combo => rfl⟩
  · rw [RiskEngine.baseRiskOf_some_eval]; norm_num
  · intro a
    refine ⟨fun h => ?_, fun h => ?_, fun h => ?_, fun h => ?_, fun h => ?_, fun h => ?_⟩
    · rw [RiskEngine.baseRiskOf_some_eval]
      split_ifs <;> first | rfl | (exfalso ; linarith)
    all_goals obtain ⟨h1, h2⟩ := h
    all_goals rw [RiskEngine.baseRiskOf_some_eval]
    all_goals split_ifs <;> first | rfl | (exfalso ; linarith)

/-- C6 witness: concrete ages in each bracket, plus the absent-age default. -/
theorem age_bracket_baselines_witness :
    RiskEngine.baseRiskOf (some 17) = 0.14 ∧
    RiskEngine.baseRiskOf (some 14) = 0.325 ∧
    RiskEngine.baseRiskOf (some 11) = 0.535 ∧
    RiskEngine.baseRiskOf (some 8) = 0.69 ∧
    RiskEngine.baseRiskOf (some 5) = 0.85 ∧
    RiskEngine.baseRiskOf (some 2) = 0.94 :=
  ⟨(age_bracket_baselines.2.2.1 17).1 (by norm_num),
   (age_bracket_baselines.2.2.1 14).2.1 (by norm_num),
   (age_bracket_baselines.2.2.1 11).2.2.1 (by norm_num),
   (age_bracket_baselines.2.2.1 8).2.2.2.1 (by norm_num),
   (age_bracket_baselines.2.2.1 5).2.2.2.2.1 (by norm_num),
   (age_bracket_baselines.2.2.1 2).2.2.2.2.2 (by norm_num)⟩

/-- C7: weeks-variant duration resolution — absent/empty duration gives
"medium" (multiplier 1.1); a numeric duration below 4 gives "short",
between 4 and 24 gives "medium", above 24 gives "long"; and the
multipliers for the three categories are 1.0, 1.1 and 1.2. -/
theorem duration_weeks_categories :
    RiskEngine.getDurationKey none = "medium" ∧
    RiskEngine.durMultOf none = 1.1 ∧
    (∀ w : ℚ,
      (w < 4 → RiskEngine.getDurationKey (some w) = "short") ∧
      (4 ≤ w ∧ w ≤ 24 → RiskEngine.getDurationKey (some w) = "medium") ∧
      (24 < w → RiskEngine.getDurationKey (some w) = "long")) ∧
    (∀ d : Option ℚ,
      (RiskEngine.getDurationKey d = "short" → RiskEngine.durMultOf d = 1.0) ∧
      (RiskEngine.getDurationKey d = "medium" → RiskEngine.durMultOf d = 1.1) ∧
      (RiskEngine.getDurationKey d = "long" → RiskEngine.durMultOf d = 1.2)) := by
  refine ⟨rfl, RiskEngine.durMultOf_none_eval, ?_, ?_⟩
  · intro w
    refine ⟨fun h => ?_, fun h => ?_, fun h => ?_⟩
    · simp only [RiskEngine.getDurationKey]
      rw [if_pos h]
    · obtain ⟨h1, h2⟩ := h
      simp only [RiskEngine.getDurationKey]
      split_ifs <;> first | rfl | (exfalso ; linarith)
    · simp only [RiskEngine.getDurationKey]
      split_ifs <;> first | rfl | (exfalso ; linarith)
  · intro d
    refine ⟨fun h => ?_, fun h => ?_, fun h => ?_⟩ <;>
      simp [RiskEngine.durMultOf, h, RiskEngine.DURATION_MULTIPLIERS, List.lookup]

/-- C7 witness: concrete durations in each band, and the matching
multipliers. -/
theorem duration_weeks_categories_witness :
    RiskEngine.getDurationKey (some 2) = "short" ∧
    RiskEngine.getDurationKey (some 12) = "medium" ∧
    RiskEngine.getDurationKey (some 30) = "long" ∧
    RiskEngine.durMultOf (some 2) = 1.0 ∧
    RiskEngine.durMultOf (some 12) = 1.1 ∧
    RiskEngine.durMultOf (some 30) = 1.2 :=
  ⟨(duration_weeks_categories.2.2.1 2).1 (by norm_num),
   (duration_weeks_categories.2.2.1 12).2.1 (by norm_num),
   (duration_weeks_categories.2.2.1 30).2.2 (by norm_num),
   (duration_weeks_categories.2.2.2 (some 2)).1
     ((duration_weeks_categories.2.2.1 2).1 (by norm_num)),
   (duration_weeks_categories.2.2.2 (some 12)).2.1
     ((duration_weeks_categories.2.2.1 12).2.1 (by norm_num)),
   (duration_weeks_categories.2.2.2 (some 30)).2.2
     ((duration_weeks_categories.2.2.1 30).2.2 (by norm_num))⟩

/-- C8: the count-based adder and symptom-load category as step functions
of the symptom-list length: 0 symptoms add 0.0 ("Low"), 1 adds 0.05
("Low"), 2 or 3 add 0.10 ("Moderate"), 4 or more add 0.25 ("High"). -/
theorem symptom_count_rule (syms : List String) :
    (syms.length = 0 → RiskEngine.symptomAdder syms.length = 0 ∧
      RiskEngine.symptomCountCategory syms.length = "Low") ∧
    (syms.length = 1 → RiskEngine.symptomAdder syms.length = 0.05 ∧
      RiskEngine.symptomCountCategory syms.length = "Low") ∧
    (syms.length = 2 ∨ syms.length = 3 → RiskEngine.symptomAdder syms.length = 0.10 ∧
      RiskEngine.symptomCountCategory syms.length = "Moderate") ∧
    (4 ≤ syms.length → RiskEngine.symptomAdder syms.length = 0.25 ∧
      RiskEngine.symptomCountCategory syms.length = "High") := by
  refine ⟨fun h => ?_, fun h => ?_, fun h => ?_, fun h => ?_⟩ <;>
    constructor <;>
    simp only [RiskEngine.symptomAdder, RiskEngine.symptomCountCategory] <;>
    split_ifs <;> first | rfl | (exfalso ; rcases h with h | h <;> omega) | (exfalso ; omega)

/-- C8 witness: concrete symptom lists of lengths 1 and 2. -/
theorem symptom_count_rule_witness :
    (RiskEngine.symptomAdder ["Anxiety"].length = 0.05 ∧
      RiskEngine.symptomCountCategory ["Anxiety"].length = "Low") ∧
    (RiskEngine.symptomAdder ["Anxiety", "Fatigue"].length = 0.10 ∧
      RiskEngine.symptomCountCategory ["Anxiety", "Fatigue"].length = "Moderate") :=
  ⟨(symptom_count_rule ["Anxiety"]).2.1 rfl,
   (symptom_count_rule ["Anxiety", "Fatigue"]).2.2.1 (Or.inl rfl)⟩

/-- C3: brand "Almont" with "Levocetirizine" among the combo drugs forces
percentage 96, label "High Risk" and the critical-combination flag, while
the symptom category and high-severity flag are reported as computed by
the symptom steps. -/
theorem criticalCombo_override (age : Option ℚ) (dose : String) (dur : Option ℚ)
    (syms : List String) (t : Bool) (brand : String) (combo : List String)
    (hb : brand = "Almont") (hc : combo.contains "Levocetirizine" = true) :
    (RiskEngine.calculate age dose dur syms t brand combo).percentage = 96 ∧
    (RiskEngine.calculate age dose dur syms t brand combo).label = "High Risk" ∧
    (RiskEngine.calculate age dose dur syms t brand combo).details.isCriticalCombo = true ∧
    (RiskEngine.calculate age dose dur syms t brand combo).details.symptomCat
      = RiskEngine.symptomCatOf syms ∧
    (RiskEngine.calculate age dose dur syms t brand combo).details.hasHighSeverity
      = RiskEngine.hasHighSeverity syms := by
  have hcrit : RiskEngine.isCriticalCombo brand combo = true := by
    simpa [RiskEngine.isCriticalCombo, hb] using hc
  have hf : RiskEngine.riskFraction age dose dur syms t brand combo = 0.96 := by
    have hpre : RiskEngine.preClampRisk age dose dur syms t brand combo = 0.96 := by
      simp [RiskEngine.preClampRisk, hcrit]
    show RiskEngine.clampRisk (RiskEngine.preClampRisk age dose dur syms t brand combo) = 0.96
    rw [hpre]
    exact RiskEngine.clampRisk_id (by norm_num) (by norm_num)
  refine ⟨?_, ?_, hcrit, rfl, rfl⟩
  · show round (RiskEngine.riskFraction age dose dur syms t brand combo * 100) = 96
    rw [hf]
    norm_num [round_eq, Int.floor_eq_iff]
  · show RiskEngine.labelFor (RiskEngine.riskFraction age dose dur syms t brand combo)
      = "High Risk"
    rw [hf]
    simp only [RiskEngine.labelFor]
    norm_num

/-- C3 witness: a concrete Almont + Levocetirizine input. -/
theorem criticalCombo_override_witness :
    (RiskEngine.calculate (some 17) "4mg" (some 2) [] false "Almont"
      ["Levocetirizine"]).percentage = 96 ∧
    (RiskEngine.calculate (some 17) "4mg" (some 2) [] false "Almont"
      ["Levocetirizine"]).label = "High Risk" ∧
    (RiskEngine.calculate (some 17) "4mg" (some 2) [] false "Almont"
      ["Levocetirizine"]).details.isCriticalCombo = true ∧
    (RiskEngine.calculate (some 17) "4mg" (some 2) [] false "Almont"
      ["Levocetirizine"]).details.symptomCat = RiskEngine.symptomCatOf [] ∧
    (RiskEngine.calculate (some 17) "4mg" (some 2) [] false "Almont"
      ["Levocetirizine"]).details.hasHighSeverity = RiskEngine.hasHighSeverity [] :=
  criticalCombo_override (some 17) "4mg" (some 2) [] false "Almont" ["Levocetirizine"]
    rfl (by simp)

/-- C4 counterexample: called with brand "Almont" and an absent
`comboDrugs` (legal in JavaScript, where the trailing argument may simply
be omitted), `calculate` dereferences `undefined` and throws instead of
returning a `RiskResult`. -/
theorem calculate_missing_combo_error :
    RiskEngine.calculateJS (some 8) "5mg" (some 12) [] true "Almont" none
      = Except.error
          "TypeError: Cannot read properties of undefined (reading includes)" := by
  simp [RiskEngine.calculateJS]

/-- C4 (amended): on the documented domain — `comboDrugs` an actual list —
`calculate` is total: it always returns a `RiskResult` and never throws. -/
theorem calculateJS_total_on_lists (age : Option ℚ) (dose : String) (dur : Option ℚ)
    (syms : List String) (t : Bool) (brand : String) (combo : List String) :
    RiskEngine.calculateJS age dose dur syms t brand (some combo)
      = Except.ok (RiskEngine.calculate age dose dur syms t brand combo) := by
  simp only [RiskEngine.calculateJS]
  split_ifs <;> rfl

/-- C9: the worked example of the weeks variant — age 8, dose 5mg,
12 weeks, no symptoms, temporal association, no critical combination —
uses baseline 0.69, dose multiplier 1.1, duration category "medium" with
multiplier 1.1, reaches the exact fraction 0.960135, and returns label
"High Risk" with percentage 96. -/
theorem example_weeks_high_risk (brand : String) (combo : List String)
    (h : RiskEngine.isCriticalCombo brand combo = false) :
    RiskEngine.getDurationKey (some 12) = "medium" ∧
    RiskEngine.baseRiskOf (some 8) = 0.69 ∧
    RiskEngine.doseMultOf "5mg" = 1.1 ∧
    RiskEngine.durMultOf (some 12) = 1.1 ∧
    RiskEngine.riskFraction (some 8) "5mg" (some 12) [] true brand combo = 0.960135 ∧
    (RiskEngine.calculate (some 8) "5mg" (some 12) [] true brand combo).label
      = "High Risk" ∧
    (RiskEngine.calculate (some 8) "5mg" (some 12) [] true brand combo).percentage
      = 96 := by
  have hb : RiskEngine.baseRiskOf (some 8) = 0.69 := by
    rw [RiskEngine.baseRiskOf_some_eval]; norm_num
  have hdo : RiskEngine.doseMultOf "5mg" = 1.1 := by
    simp [RiskEngine.doseMultOf, RiskEngine.DOSE_MULTIPLIERS, List.lookup]
  have hdu : RiskEngine.durMultOf (some 12) = 1.1 := by
    rw [RiskEngine.durMultOf_some_eval]; norm_num
  have hkey : RiskEngine.getDurationKey (some 12) = "medium" := by
    simp only [RiskEngine.getDurationKey]
    norm_num
  have hf : RiskEngine.riskFraction (some 8) "5mg" (some 12) [] true brand combo
      = 0.960135 := by
    simp only [RiskEngine.riskFraction, RiskEngine.preClampRisk, RiskEngine.clampRisk,
      hb, hdo, hdu, RiskEngine.symptomAdder, RiskEngine.hasHighSeverity, h,
      List.any_nil, List.length_nil]
    norm_num
  refine ⟨hkey, hb, hdo, hdu, hf, ?_, ?_⟩
  · show RiskEngine.labelFor
      (RiskEngine.riskFraction (some 8) "5mg" (some 12) [] true brand combo) = "High Risk"
    rw [hf]
    simp only [RiskEngine.labelFor]
    norm_num
  · show round
      (RiskEngine.riskFraction (some 8) "5mg" (some 12) [] true brand combo * 100) = 96
    rw [hf]
    norm_num [round_eq, Int.floor_eq_iff]

/-- C9 witness: the example with brand "Singulair" and no combo drugs. -/
theorem example_weeks_high_risk_witness :
    RiskEngine.riskFraction (some 8) "5mg" (some 12) [] true "Singulair" [] = 0.960135 ∧
    (RiskEngine.calculate (some 8) "5mg" (some 12) [] true "Singulair" []).label
      = "High Risk" ∧
    (RiskEngine.calculate (some 8) "5mg" (some 12) [] true "Singulair" []).percentage
      = 96 := by
  obtain ⟨-, -, -, -, h5, h6, h7⟩ := example_weeks_high_risk "Singulair" []
    (by simp [RiskEngine.isCriticalCombo])
  exact ⟨h5, h6, h7⟩

/-- C10: with the critical combination not applying, the weeks-variant
`calculate` on a duration of `4 * m` weeks agrees with the months-variant
`calculate` on `m` months in percentage, label, baseline, symptom
category, and high-severity flag. -/
theorem months_weeks_equivalence (age : Option ℚ) (dose : String) (m : ℚ)
    (syms : List String) (t : Bool) (brand : String) (combo : List String)
    (h : RiskEngine.isCriticalCombo brand combo = false) :
    (RiskEngine.calculate age dose (some (4 * m)) syms t brand combo).percentage
      = (RiskEngineM.calculate age dose (some m) syms t).percentage ∧
    (RiskEngine.calculate age dose (some (4 * m)) syms t brand combo).label
      = (RiskEngineM.calculate age dose (some m) syms t).label ∧
    (RiskEngine.calculate age dose (some (4 * m)) syms t brand combo).details.base
      = (RiskEngineM.calculate age dose (some m) syms t).details.base ∧
    (RiskEngine.calculate age dose (some (4 * m)) syms t brand combo).details.symptomCat
      = (RiskEngineM.calculate age dose (some m) syms t).details.symptomCat ∧
    (RiskEngine.calculate age dose (some (4 * m)) syms t brand combo).details.hasHighSeverity
      = (RiskEngineM.calculate age dose (some m) syms t).details.hasHighSeverity := by
  have hdur : RiskEngine.durMultOf (some (4 * m)) = RiskEngineM.durMultOf (some m) := by
    simp only [RiskEngine.durMultOf, RiskEngineM.durMultOf, getDurationKey_four_mul]
  have hpre : RiskEngine.preClampRisk age dose (some (4 * m)) syms t brand combo
      = RiskEngineM.preClampRisk age dose (some m) syms t := by
    simp only [RiskEngine.preClampRisk, RiskEngineM.preClampRisk, hdur, h]
    simp
  have hf : RiskEngine.riskFraction age dose (some (4 * m)) syms t brand combo
      = RiskEngineM.riskFraction age dose (some m) syms t := by
    simp only [RiskEngine.riskFraction, RiskEngineM.riskFraction, hpre]
  refine ⟨?_, ?_, rfl, rfl, rfl⟩
  · show round (RiskEngine.riskFraction age dose (some (4 * m)) syms t brand combo * 100)
      = round (RiskEngineM.riskFraction age dose (some m) syms t * 100)
    rw [hf]
  · show RiskEngine.labelFor
        (RiskEngine.riskFraction age dose (some (4 * m)) syms t brand combo)
      = RiskEngine.labelFor (RiskEngineM.riskFraction age dose (some m) syms t)
    rw [hf]

/-- C10 witness: age 8, dose 5mg, 3 months versus 12 weeks, no symptoms,
temporal association, brand "Singulair" with no combo drugs. -/
theorem months_weeks_equivalence_witness :
    (RiskEngine.calculate (some 8) "5mg" (some (4 * 3)) [] true "Singulair" []).percentage
      = (RiskEngineM.calculate (some 8) "5mg" (some 3) [] true).percentage ∧
    (RiskEngine.calculate (some 8) "5mg" (some (4 * 3)) [] true "Singulair" []).label
      = (RiskEngineM.calculate (some 8) "5mg" (some 3) [] true).label :=
  ⟨(months_weeks_equivalence (some 8) "5mg" 3 [] true "Singulair" []
      (by simp [RiskEngine.isCriticalCombo])).1,
   (months_weeks_equivalence (some 8) "5mg" 3 [] true "Singulair" []
      (by simp [RiskEngine.isCriticalCombo])).2.1⟩
